import Mathlib

/-!
Shallow embedding of the incremental feed synchronization engine of the
prj-board repository, as implemented in `src/pages/Home.tsx` (the `homeReducer`
function, the `loadPosts` callback, the filter-change effect, and the Retry
button handler) and its `usePosts` hook variant.

The reducer state, the action type and the reducer itself are transcribed
field by field from the source.  The asynchronous behaviour of `loadPosts`
is embedded as explicit steps on an `Engine` record that carries, besides the
reducer state, the synchronous `isFetchingRef` flag and the append-only log of
network requests issued through `postService`.  Each step corresponds to one
synchronous tick of the event loop; in a tick, `stateRef.current` holds the
last committed reducer state, so a handler that dispatches and then calls
`loadPosts` in the same tick hands `loadPosts` the pre-dispatch snapshot.
-/

/-- An item of the feed.  The engine never inspects a post beyond identity,
so a post is embedded as its unique identifier. -/
structure Post where
  id : Nat
deriving DecidableEq

/-- The `feedType` field of the Home state: `"forYou" | "following"`. -/
inductive FeedType
  | forYou
  | following
deriving DecidableEq

/-- The `HomeState` record of `Home.tsx` (and `PostsState` of `usePosts`,
which merely lacks `feedType`). -/
structure HomeState where
  posts : List Post
  loading : Bool
  error : Option String
  page : Nat
  hasMore : Bool
  searchQuery : String
  sortBy : String
  feedType : FeedType
deriving DecidableEq

/-- The `HomeAction` union of `Home.tsx`. -/
inductive HomeAction
  | fetchStart
  | fetchSuccess (posts : List Post) (totalPages : Nat)
  | fetchError (msg : String)
  | reset
  | setSearch (q : String)
  | setSort (s : String)
  | setFeedType (f : FeedType)

/-- The `initialState` constant of `Home.tsx`. -/
def initialState : HomeState :=
  { posts := []
    loading := false
    error := none
    page := 1
    hasMore := true
    searchQuery := ""
    sortBy := "date"
    feedType := FeedType.forYou }

/-- The `homeReducer` function of `Home.tsx`, case by case.  `FETCH_SUCCESS`
computes `newPage = state.page + 1` and `newHasMore = newPage <= totalPages`;
the reset-like cases rebuild the state from `initialState`, keeping the
filter fields exactly as the source spreads them. -/
def homeReducer (state : HomeState) (action : HomeAction) : HomeState :=
  match action with
  | HomeAction.fetchStart =>
      { state with loading := true, error := none }
  | HomeAction.fetchSuccess posts totalPages =>
      let newPage := state.page + 1
      let newHasMore := decide (newPage ≤ totalPages)
      { state with
          loading := false
          posts := state.posts ++ posts
          page := newPage
          hasMore := newHasMore }
  | HomeAction.fetchError msg =>
      { state with loading := false, error := some msg }
  | HomeAction.reset =>
      { initialState with
          searchQuery := state.searchQuery
          sortBy := state.sortBy
          feedType := state.feedType }
  | HomeAction.setSearch q =>
      { initialState with
          searchQuery := q
          sortBy := state.sortBy
          feedType := state.feedType }
  | HomeAction.setSort s =>
      { initialState with
          searchQuery := state.searchQuery
          sortBy := s
          feedType := state.feedType }
  | HomeAction.setFeedType f =>
      { initialState with
          feedType := f
          searchQuery := state.searchQuery
          sortBy := state.sortBy }

/-- The `PAGE_SIZE` constant of `Home.tsx`. -/
def PAGE_SIZE : Nat := 10

/-- JavaScript truthiness of the `accessToken` value (`string | null`):
`!accessToken` is true for `null` and for the empty string. -/
def tokenPresent : Option String → Bool
  | none => false
  | some s => !s.isEmpty

/-- A network request issued through `postService`: either
`getFollowingPosts(page, PAGE_SIZE, sort, accessToken)` or
`getAllPosts(page, PAGE_SIZE, query, sort, accessToken || undefined)`. -/
inductive FetchRequest
  | followingPosts (page limit : Nat) (sort : String) (accessToken : Option String)
  | allPosts (page limit : Nat) (query sort : String) (accessToken : Option String)
deriving DecidableEq

/-- The `page` parameter carried by a request. -/
def FetchRequest.page : FetchRequest → Nat
  | FetchRequest.followingPosts p _ _ _ => p
  | FetchRequest.allPosts p _ _ _ _ => p

/-- The engine: the reducer state, the synchronous `isFetchingRef` flag, and
the append-only log of network requests issued so far (its growth counts the
network calls made). -/
structure Engine where
  st : HomeState
  isFetching : Bool
  requests : List FetchRequest
deriving DecidableEq

/-- The engine at mount: `initialState`, flag clear, no request issued. -/
def initEngine : Engine :=
  { st := initialState, isFetching := false, requests := [] }

/-- One invocation of the `loadPosts` callback of `Home.tsx` (lines 129-197)
up to its `await`: the synchronous duplicate guard
`if (isFetchingRef.current || !stateRef.current.hasMore) return`, the
immediate `isFetchingRef.current = true`, the `FETCH_START` dispatch, then
either the unauthenticated following-feed short-circuit (dispatch
`FETCH_SUCCESS` with an empty page and `totalPages: 0`, release the flag,
return) or the issue of one request to `postService`.  `snapshot` is the
state read through `stateRef.current` during this tick: the last committed
reducer state, which lags behind dispatches made earlier in the same tick. -/
def loadPosts (snapshot : HomeState) (accessToken : Option String) (e : Engine) : Engine :=
  if e.isFetching || !snapshot.hasMore then
    e
  else
    let e1 : Engine :=
      { e with isFetching := true, st := homeReducer e.st HomeAction.fetchStart }
    if snapshot.feedType = FeedType.following then
      if !tokenPresent accessToken then
        { e1 with
            st := homeReducer e1.st (HomeAction.fetchSuccess [] 0)
            isFetching := false }
      else
        { e1 with
            requests := e1.requests ++
              [FetchRequest.followingPosts snapshot.page PAGE_SIZE snapshot.sortBy
                accessToken] }
    else
      { e1 with
          requests := e1.requests ++
            [FetchRequest.allPosts snapshot.page PAGE_SIZE snapshot.searchQuery
              snapshot.sortBy
              (if tokenPresent accessToken then accessToken else none)] }

/-- An invocation of `loadPosts` from the intersection observer callback, the
mount effect, or any tick in which `stateRef` is in sync with the committed
reducer state (`loadMore` is the name under which `usePosts` exports it). -/
def loadMore (accessToken : Option String) (e : Engine) : Engine :=
  loadPosts e.st accessToken e

/-- The continuation of `loadPosts` when its awaited request resolves
successfully: dispatch `FETCH_SUCCESS` with the response's posts and
`totalPages`, then the `finally` block clears `isFetchingRef`.  The code
applies whichever response arrives, with no record of the reset epoch the
request was issued under. -/
def resolveSuccess (posts : List Post) (totalPages : Nat) (e : Engine) : Engine :=
  { e with
      st := homeReducer e.st (HomeAction.fetchSuccess posts totalPages)
      isFetching := false }

/-- The continuation of `loadPosts` when its awaited request fails: the
`catch` block dispatches `FETCH_ERROR` with the failure message, then the
`finally` block clears `isFetchingRef`. -/
def resolveError (msg : String) (e : Engine) : Engine :=
  { e with
      st := homeReducer e.st (HomeAction.fetchError msg)
      isFetching := false }

/-- Dispatch of a filter action followed by the filter-change effect of
`Home.tsx` (lines 208-232).  The effect runs only when the
`(searchQuery, sortBy, feedType)` triple actually changed: both its
dependency array and its explicit `prevFiltersRef` comparison reduce to
comparing the new triple with the previous committed one, since
`prevFiltersRef` is updated on every detected change.  When the triple
changed, the effect dispatches `RESET`, clears `isFetchingRef`, and calls
`loadPosts`; at that point `stateRef` holds the post-dispatch state (the
`stateRef` sync effect is declared first), while the `RESET` dispatched
inside this very effect is not yet committed. -/
def dispatchFilter (a : HomeAction) (accessToken : Option String) (e : Engine) : Engine :=
  let st1 := homeReducer e.st a
  if st1.searchQuery = e.st.searchQuery ∧ st1.sortBy = e.st.sortBy ∧
      st1.feedType = e.st.feedType then
    { e with st := st1 }
  else
    loadPosts st1 accessToken
      { e with st := homeReducer st1 HomeAction.reset, isFetching := false }

/-- The `handleSearch` handler of `Home.tsx`: dispatch `SET_SEARCH`, after
which the filter-change effect reacts. -/
def handleSearch (q : String) (accessToken : Option String) (e : Engine) : Engine :=
  dispatchFilter (HomeAction.setSearch q) accessToken e

/-- The `handleSortChange` handler of `Home.tsx`: dispatch `SET_SORT`, after
which the filter-change effect reacts. -/
def handleSortChange (s : String) (accessToken : Option String) (e : Engine) : Engine :=
  dispatchFilter (HomeAction.setSort s) accessToken e

/-- The feed-type tab handler of `Home.tsx`: dispatch `SET_FEED_TYPE`, after
which the filter-change effect reacts. -/
def selectFeedType (f : FeedType) (accessToken : Option String) (e : Engine) : Engine :=
  dispatchFilter (HomeAction.setFeedType f) accessToken e

/-- The Retry button handler of `Home.tsx` (lines 404-407) and the `retry`
callback of `usePosts` (part_001 lines 214-217): dispatch `RESET`, then call
`loadPosts` in the same tick.  Because `stateRef` is only synced after the
render commits, `loadPosts` here reads the pre-`RESET` state. -/
def retry (accessToken : Option String) (e : Engine) : Engine :=
  loadPosts e.st accessToken { e with st := homeReducer e.st HomeAction.reset }

/-- Modelled from the spec for the retry-equivalence comparison:
`reset(currentFilters)` applied and committed, then `loadNext()` invoked in a
later tick, reading the post-reset state. -/
def resetThenLoadNext (accessToken : Option String) (e : Engine) : Engine :=
  loadMore accessToken { e with st := homeReducer e.st HomeAction.reset }

/-- The first load from the mounted feed issues exactly the page-1 request
of the default filters. -/
theorem initialLoad_requests : (loadMore none initEngine).requests =
    [FetchRequest.allPosts 1 10 "" "date" none] := by decide

/-- While the synchronous flag is held, an invocation of `loadPosts` returns
without doing anything. -/
theorem loadPosts_of_fetching (s : HomeState) (tok : Option String) (e : Engine)
    (h : e.isFetching = true) : loadPosts s tok e = e := by
  unfold loadPosts
  rw [h]
  simp

/-- When the snapshot says there is no further page, an invocation of
`loadPosts` returns without doing anything. -/
theorem loadPosts_of_noMore (s : HomeState) (tok : Option String) (e : Engine)
    (h : s.hasMore = false) : loadPosts s tok e = e := by
  unfold loadPosts
  rw [h]
  simp

/-- When the flag is free, the snapshot has a further page, and the
followed-only scope has a present token, `loadPosts` dispatches `FETCH_START`,
takes the flag, and issues exactly one request whose page parameter is the
snapshot's page. -/
theorem loadPosts_issued (s : HomeState) (tok : Option String) (e : Engine)
    (hf : e.isFetching = false) (hm : s.hasMore = true)
    (hc : s.feedType = FeedType.following → tokenPresent tok = true) :
    ∃ req : FetchRequest,
      loadPosts s tok e =
        { st := homeReducer e.st HomeAction.fetchStart
          isFetching := true
          requests := e.requests ++ [req] } ∧
      req.page = s.page := by
  unfold loadPosts
  rw [hf, hm]
  cases hft : s.feedType with
  | forYou =>
      refine ⟨FetchRequest.allPosts s.page PAGE_SIZE s.searchQuery s.sortBy
        (if tokenPresent tok then tok else none), ?_, rfl⟩
      simp
  | following =>
      refine ⟨FetchRequest.followingPosts s.page PAGE_SIZE s.sortBy tok, ?_, rfl⟩
      rw [hc hft]
      simp

/-- When the flag is free, the snapshot has a further page, the scope is the
followed-only feed, and no token is present, `loadPosts` performs the
short-circuit: `FETCH_START` then `FETCH_SUCCESS` with an empty page and
`totalPages = 0`, flag released, no request issued. -/
theorem loadPosts_shortCircuit (s : HomeState) (tok : Option String) (e : Engine)
    (hf : e.isFetching = false) (hm : s.hasMore = true)
    (hft : s.feedType = FeedType.following) (htk : tokenPresent tok = false) :
    loadPosts s tok e =
      { st := homeReducer (homeReducer e.st HomeAction.fetchStart)
          (HomeAction.fetchSuccess [] 0)
        isFetching := false
        requests := e.requests } := by
  unfold loadPosts
  rw [hf, hm, hft, htk]
  simp

/-- The result of `loadPosts` depends on the snapshot only through the five
fields it reads: `hasMore`, `feedType`, `page`, `searchQuery`, `sortBy`. -/
theorem loadPosts_congr (s1 s2 : HomeState) (tok : Option String) (e : Engine)
    (h1 : s1.hasMore = s2.hasMore) (h2 : s1.feedType = s2.feedType)
    (h3 : s1.page = s2.page) (h4 : s1.searchQuery = s2.searchQuery)
    (h5 : s1.sortBy = s2.sortBy) :
    loadPosts s1 tok e = loadPosts s2 tok e := by
  unfold loadPosts
  rw [h1, h2, h3, h4, h5]

/-- The generation-1 fetch: the mount-time `loadPosts` issues a request for
page 1 of the empty query and leaves it in flight. -/
def g1InFlight : Engine := loadMore none initEngine

/-- While the generation-1 request is still outstanding, the user searches
for "cats": `handleSearch` resets the feed and issues the generation-2
request. -/
def g2InFlight : Engine := handleSearch "cats" none g1InFlight

/-- The generation-2 response (one post, one total page) arrives first and is
applied. -/
def g2Applied : Engine := resolveSuccess [Post.mk 100] 1 g2InFlight

/-- The late generation-1 response (two posts, three total pages) arrives
after the reset and after generation 2 was applied. -/
def g1LateApplied : Engine := resolveSuccess [Post.mk 1, Post.mk 2] 3 g2Applied

/-- Claim C1: stale-response immunity fails on the code.  After a reset to
generation 2 and the arrival of generation 2's response, the late resolution
of the generation-1 fetch is dispatched as an ordinary `FETCH_SUCCESS`: it
appends the stale posts, advances the page from 2 to 3, and flips `hasMore`
back from `false` to `true`.  The code keeps no generation counter, so a
response whose originating epoch differs from the current one is still
applied to the feed state. -/
theorem C1_stale_response_applied :
    g1InFlight.requests = [FetchRequest.allPosts 1 10 "" "date" none] ∧
    g2InFlight.requests =
      [FetchRequest.allPosts 1 10 "" "date" none,
        FetchRequest.allPosts 1 10 "cats" "date" none] ∧
    g2Applied.st.posts = [Post.mk 100] ∧
    g2Applied.st.page = 2 ∧
    g2Applied.st.hasMore = false ∧
    g2Applied.st.error = none ∧
    g1LateApplied.st.posts = [Post.mk 100, Post.mk 1, Post.mk 2] ∧
    g1LateApplied.st.page = 3 ∧
    g1LateApplied.st.hasMore = true ∧
    g1LateApplied.st.posts ≠ g2Applied.st.posts ∧
    g1LateApplied.st.page ≠ g2Applied.st.page ∧
    g1LateApplied.st.hasMore ≠ g2Applied.st.hasMore := by decide

/-- The posts returned by the server for one full page (ten distinct items). -/
def pagePosts (p : Nat) : List Post :=
  (List.range 10).map (fun i => Post.mk (10 * p + i))

/-- Scenario A of the spec: page size 10, the server reports three total
pages, and three `loadNext` calls each resolve successfully with a full
page. -/
def scenarioA : Engine :=
  resolveSuccess (pagePosts 2) 3 (loadMore none
    (resolveSuccess (pagePosts 1) 3 (loadMore none
      (resolveSuccess (pagePosts 0) 3 (loadMore none initEngine)))))

/-- Claim C2: a successful fetch appends the returned posts at the end of the
list in response order, increments the page cursor by exactly one, recomputes
`hasMore` as `newPage <= totalPages` (the response's `totalPages` is consumed
on the spot, which is how the state records it), and ends with
`loading = false`, `error = none`; and from the initial state with page size
10 and `totalPages = 3`, three successful `loadNext` calls accumulate 30
posts and end with `hasMore = false` after exactly three requests. -/
theorem C2_success_postcondition (e : Engine) (tok : Option String)
    (posts : List Post) (tp : Nat)
    (hf : e.isFetching = false) (hm : e.st.hasMore = true)
    (hc : e.st.feedType = FeedType.following → tokenPresent tok = true) :
    ((resolveSuccess posts tp (loadMore tok e)).st.posts = e.st.posts ++ posts ∧
      (resolveSuccess posts tp (loadMore tok e)).st.page = e.st.page + 1 ∧
      (resolveSuccess posts tp (loadMore tok e)).st.hasMore =
        decide (e.st.page + 1 ≤ tp) ∧
      (resolveSuccess posts tp (loadMore tok e)).st.loading = false ∧
      (resolveSuccess posts tp (loadMore tok e)).st.error = none ∧
      (loadMore tok e).requests.length = e.requests.length + 1) ∧
    (scenarioA.st.posts.length = 30 ∧ scenarioA.st.hasMore = false ∧
      scenarioA.requests.length = 3) := by
  obtain ⟨req, hEq, hpg⟩ := loadPosts_issued e.st tok e hf hm hc
  refine ⟨?_, by decide⟩
  have hst : (resolveSuccess posts tp (loadMore tok e)).st =
      { e.st with
          loading := false
          error := none
          posts := e.st.posts ++ posts
          page := e.st.page + 1
          hasMore := decide (e.st.page + 1 ≤ tp) } := by
    unfold loadMore
    rw [hEq]
    simp [resolveSuccess, homeReducer]
  refine ⟨?_, ?_, ?_, ?_, ?_, ?_⟩
  · rw [hst]
  · rw [hst]
  · rw [hst]
  · rw [hst]
  · rw [hst]
  · unfold loadMore
    rw [hEq]
    simp

/-- A feed whose `hasMore` flag is already `false`. -/
def noMoreEngine : Engine :=
  { st := { initialState with hasMore := false }, isFetching := false, requests := [] }

/-- Claim C3: after a response is applied, `hasMore` is `false` exactly when
the new next page number exceeds the response's `totalPages`; and in any
state whose `hasMore` is `false`, `loadNext` is a no-op: the engine (state,
flag, and request log) is unchanged and no network request is issued. -/
theorem C3_hasMore_correct (st : HomeState) (posts : List Post) (tp : Nat)
    (e : Engine) (tok : Option String) (h : e.st.hasMore = false) :
    ((homeReducer st (HomeAction.fetchSuccess posts tp)).hasMore = false ↔
      tp < (homeReducer st (HomeAction.fetchSuccess posts tp)).page) ∧
    loadMore tok e = e := by
  constructor
  · simp only [homeReducer, decide_eq_false_iff_not, not_le]
  · exact loadPosts_of_noMore e.st tok e h

/-- Witness for C3 at the initial state and an empty single-page response. -/
theorem C3_hasMore_correct_witness :
    ((homeReducer initialState (HomeAction.fetchSuccess [] 0)).hasMore = false ↔
      0 < (homeReducer initialState (HomeAction.fetchSuccess [] 0)).page) ∧
    loadMore none noMoreEngine = noMoreEngine :=
  C3_hasMore_correct initialState [] 0 noMoreEngine none rfl

/-- Witness for C2: one successful fetch from the initial state. -/
theorem C2_success_postcondition_witness :
    ((resolveSuccess [Post.mk 5] 2 (loadMore none initEngine)).st.posts =
        initEngine.st.posts ++ [Post.mk 5] ∧
      (resolveSuccess [Post.mk 5] 2 (loadMore none initEngine)).st.page =
        initEngine.st.page + 1 ∧
      (resolveSuccess [Post.mk 5] 2 (loadMore none initEngine)).st.hasMore =
        decide (initEngine.st.page + 1 ≤ 2) ∧
      (resolveSuccess [Post.mk 5] 2 (loadMore none initEngine)).st.loading = false ∧
      (resolveSuccess [Post.mk 5] 2 (loadMore none initEngine)).st.error = none ∧
      (loadMore none initEngine).requests.length = initEngine.requests.length + 1) ∧
    (scenarioA.st.posts.length = 30 ∧ scenarioA.st.hasMore = false ∧
      scenarioA.requests.length = 3) :=
  C2_success_postcondition initEngine none [Post.mk 5] 2 rfl rfl (by decide)

/-- Claim C4: while the guard is free and a further page exists, the first
`loadNext` call issues exactly one request, and every further call made
before that request resolves is a no-op, so any burst of `n + 1` calls grows
the request log by exactly one; moreover any call made while the synchronous
flag is held leaves the engine untouched. -/
theorem C4_at_most_one_in_flight (tok : Option String) (e e2 : Engine) (n : Nat)
    (hf : e.isFetching = false) (hm : e.st.hasMore = true)
    (hc : e.st.feedType = FeedType.following → tokenPresent tok = true)
    (h2 : e2.isFetching = true) :
    ((loadMore tok)^[n + 1] e).requests.length = e.requests.length + 1 ∧
    loadMore tok e2 = e2 := by
  obtain ⟨req, hEq, hpg⟩ := loadPosts_issued e.st tok e hf hm hc
  have hfix : ∀ e3 : Engine, e3.isFetching = true → loadMore tok e3 = e3 :=
    fun e3 h3 => loadPosts_of_fetching e3.st tok e3 h3
  have h1 : (loadMore tok e).isFetching = true := by
    unfold loadMore
    rw [hEq]
  have hiter : ∀ m : Nat, (loadMore tok)^[m] (loadMore tok e) = loadMore tok e := by
    intro m
    induction m with
    | zero => rfl
    | succ m ih =>
        rw [Function.iterate_succ_apply, hfix (loadMore tok e) h1, ih]
  constructor
  · rw [Function.iterate_succ_apply, hiter n]
    unfold loadMore
    rw [hEq]
    simp
  · exact hfix e2 h2

/-- Witness for C4: three rapid calls from the initial state make exactly one
request, and a call on the in-flight engine is a no-op. -/
theorem C4_at_most_one_in_flight_witness :
    ((loadMore none)^[3] initEngine).requests.length =
      initEngine.requests.length + 1 ∧
    loadMore none (loadMore none initEngine) = loadMore none initEngine :=
  C4_at_most_one_in_flight none initEngine (loadMore none initEngine) 2 rfl rfl
    (by decide) (by decide)

/-- A mounted feed already switched to the followed-only scope, with no
token present. -/
def anonFollowEngine : Engine :=
  { st := { initialState with feedType := FeedType.following }
    isFetching := false
    requests := [] }

/-- Claim C5: every exit path of `loadPosts` releases the synchronous flag —
the success continuation, the failure continuation, and the unauthenticated
followed-scope short-circuit — and after a failure the next call is not
blocked: it issues a second request. -/
theorem C5_guard_release (e e2 : Engine) (tok tok2 : Option String)
    (msg : String) (posts : List Post) (tp : Nat)
    (hf : e.isFetching = false) (hm : e.st.hasMore = true)
    (hc : e.st.feedType = FeedType.following → tokenPresent tok = true)
    (hf2 : e2.isFetching = false) (hm2 : e2.st.hasMore = true)
    (hft2 : e2.st.feedType = FeedType.following)
    (htk2 : tokenPresent tok2 = false) :
    (resolveSuccess posts tp (loadMore tok e)).isFetching = false ∧
    (resolveError msg (loadMore tok e)).isFetching = false ∧
    (loadMore tok2 e2).isFetching = false ∧
    (loadMore tok (resolveError msg (loadMore tok e))).requests.length =
      e.requests.length + 2 := by
  obtain ⟨req, hEq, hpg⟩ := loadPosts_issued e.st tok e hf hm hc
  refine ⟨rfl, rfl, ?_, ?_⟩
  · have h := loadPosts_shortCircuit e2.st tok2 e2 hf2 hm2 hft2 htk2
    unfold loadMore
    rw [h]
  · have hef : resolveError msg (loadMore tok e) =
        { st := homeReducer (homeReducer e.st HomeAction.fetchStart)
            (HomeAction.fetchError msg)
          isFetching := false
          requests := e.requests ++ [req] } := by
      unfold loadMore
      rw [hEq]
      rfl
    have hm3 : (resolveError msg (loadMore tok e)).st.hasMore = true := by
      rw [hef]
      simp [homeReducer, hm]
    have hc3 : (resolveError msg (loadMore tok e)).st.feedType =
        FeedType.following → tokenPresent tok = true := by
      rw [hef]
      simp only [homeReducer]
      exact hc
    obtain ⟨req2, hEq2, hpg2⟩ := loadPosts_issued
      (resolveError msg (loadMore tok e)).st tok
      (resolveError msg (loadMore tok e)) rfl hm3 hc3
    show (loadPosts (resolveError msg (loadMore tok e)).st tok
        (resolveError msg (loadMore tok e))).requests.length =
      e.requests.length + 2
    rw [hEq2]
    simp [hef]

/-- Witness for C5: a failing first load from the initial state, and the
short-circuit on an unauthenticated followed feed. -/
theorem C5_guard_release_witness :
    (resolveSuccess [] 1 (loadMore none initEngine)).isFetching = false ∧
    (resolveError "Failed to load posts" (loadMore none initEngine)).isFetching =
      false ∧
    (loadMore none anonFollowEngine).isFetching = false ∧
    (loadMore none (resolveError "Failed to load posts"
      (loadMore none initEngine))).requests.length =
      initEngine.requests.length + 2 :=
  C5_guard_release initEngine anonFollowEngine none none
    "Failed to load posts" [] 1 rfl rfl (by decide) rfl rfl rfl rfl

/-- Claim C6: the `FETCH_ERROR` transition only flips `loading` off and
records the failure message, and a complete failing `loadNext` leaves the
post list and the pagination cursor (`page`, `hasMore`) exactly as they were
before the fetch, with `loading = false` and the error set — no partial page
is appended. -/
theorem C6_failure_atomicity (st0 : HomeState) (msg0 : String)
    (e : Engine) (tok : Option String) (msg : String)
    (hf : e.isFetching = false) (hm : e.st.hasMore = true)
    (hc : e.st.feedType = FeedType.following → tokenPresent tok = true) :
    (homeReducer st0 (HomeAction.fetchError msg0) =
      { st0 with loading := false, error := some msg0 }) ∧
    ((resolveError msg (loadMore tok e)).st.posts = e.st.posts ∧
      (resolveError msg (loadMore tok e)).st.page = e.st.page ∧
      (resolveError msg (loadMore tok e)).st.hasMore = e.st.hasMore ∧
      (resolveError msg (loadMore tok e)).st.loading = false ∧
      (resolveError msg (loadMore tok e)).st.error = some msg) := by
  obtain ⟨req, hEq, hpg⟩ := loadPosts_issued e.st tok e hf hm hc
  have hef : (resolveError msg (loadMore tok e)).st =
      { e.st with loading := false, error := some msg } := by
    unfold loadMore
    rw [hEq]
    simp [resolveError, homeReducer]
  exact ⟨rfl, by rw [hef], by rw [hef], by rw [hef], by rw [hef], by rw [hef]⟩

/-- Witness for C6: a failing first load from the initial state. -/
theorem C6_failure_atomicity_witness :
    (homeReducer initialState (HomeAction.fetchError "boom") =
      { initialState with loading := false, error := some "boom" }) ∧
    ((resolveError "Failed to load posts" (loadMore none initEngine)).st.posts =
        initEngine.st.posts ∧
      (resolveError "Failed to load posts" (loadMore none initEngine)).st.page =
        initEngine.st.page ∧
      (resolveError "Failed to load posts" (loadMore none initEngine)).st.hasMore =
        initEngine.st.hasMore ∧
      (resolveError "Failed to load posts" (loadMore none initEngine)).st.loading =
        false ∧
      (resolveError "Failed to load posts" (loadMore none initEngine)).st.error =
        some "Failed to load posts") :=
  C6_failure_atomicity initialState "boom" initEngine none
    "Failed to load posts" rfl rfl (by decide)

/-- A feed on the followed-only scope that loaded one page while a token was
present (switch to the following tab, fetch page 1, response with one post
and five total pages), after which the token is gone. -/
def followedFeed : Engine :=
  resolveSuccess [Post.mk 1] 5
    (selectFeedType FeedType.following (some "tok") initEngine)

/-- Counterexample to claim C7 as stated: on the followed-only scope with no
token present, `loadNext` does not yield `items = []` — the short-circuit
dispatches `FETCH_SUCCESS` with an empty page, which leaves the previously
loaded posts in place.  It does yield `hasMore = false` and makes no network
call. -/
theorem C7_counterexample :
    followedFeed.st.feedType = FeedType.following ∧
    tokenPresent none = false ∧
    followedFeed.isFetching = false ∧
    followedFeed.st.hasMore = true ∧
    followedFeed.st.posts = [Post.mk 1] ∧
    (loadMore none followedFeed).st.posts = [Post.mk 1] ∧
    (loadMore none followedFeed).st.posts ≠ [] ∧
    (loadMore none followedFeed).st.hasMore = false ∧
    (loadMore none followedFeed).requests = followedFeed.requests := by decide

/-- Claim C7 as amended: on the followed-only scope with no token present,
`loadNext` immediately yields a state whose post list is unchanged (hence
empty exactly when it was already empty, as after the reset that accompanies
switching scope), with `hasMore = false`, no network call, the guard
released, `loading = false` and no error. -/
theorem C7_amended (e : Engine) (tok : Option String)
    (hf : e.isFetching = false) (hm : e.st.hasMore = true)
    (hft : e.st.feedType = FeedType.following) (htk : tokenPresent tok = false) :
    (loadMore tok e).st.posts = e.st.posts ∧
    (loadMore tok e).st.hasMore = false ∧
    (loadMore tok e).requests = e.requests ∧
    (loadMore tok e).isFetching = false ∧
    (loadMore tok e).st.loading = false ∧
    (loadMore tok e).st.error = none ∧
    (e.st.posts = [] → (loadMore tok e).st.posts = []) := by
  have h := loadPosts_shortCircuit e.st tok e hf hm hft htk
  unfold loadMore
  rw [h]
  refine ⟨?_, ?_, rfl, rfl, ?_, ?_, ?_⟩
  · simp [homeReducer]
  · simp [homeReducer]
  · simp [homeReducer]
  · simp [homeReducer]
  · intro hp
    simp [homeReducer, hp]

/-- Witness for C7's amended claim: the freshly reset unauthenticated
followed feed. -/
theorem C7_amended_witness :
    (loadMore none anonFollowEngine).st.posts = anonFollowEngine.st.posts ∧
    (loadMore none anonFollowEngine).st.hasMore = false ∧
    (loadMore none anonFollowEngine).requests = anonFollowEngine.requests ∧
    (loadMore none anonFollowEngine).isFetching = false ∧
    (loadMore none anonFollowEngine).st.loading = false ∧
    (loadMore none anonFollowEngine).st.error = none ∧
    (anonFollowEngine.st.posts = [] →
      (loadMore none anonFollowEngine).st.posts = []) :=
  C7_amended anonFollowEngine none rfl rfl rfl rfl

/-- A feed that has loaded its first page: one post, three total pages. -/
def loadedFeed : Engine :=
  resolveSuccess [Post.mk 1] 3 (loadMore none initEngine)

/-- Counterexample to claim C8 as stated: dispatching `SET_SORT` with the
value `sortBy` already holds issues no refetch and no network request (the
filter-change effect's equality guard sees no change), but it is not the
identity — the `SET_SORT` reducer case unconditionally rebuilds the state
from `initialState`, clearing the loaded posts. -/
theorem C8_counterexample :
    loadedFeed.st.sortBy = "date" ∧
    loadedFeed.st.posts = [Post.mk 1] ∧
    (handleSortChange "date" none loadedFeed).st.posts = [] ∧
    (handleSortChange "date" none loadedFeed).st.posts ≠ loadedFeed.st.posts ∧
    (handleSortChange "date" none loadedFeed).st.page = 1 ∧
    (handleSortChange "date" none loadedFeed).requests = loadedFeed.requests := by
  decide

/-- Claim C8 as amended: setting `sortKey` to the value it already holds
fires no refetch, no `RESET` from the filter-change effect, and no network
request, and leaves the synchronous flag alone — but the `SET_SORT` dispatch
itself resets the reducer state to the initial state with the current
filters: posts cleared, page 1, `hasMore = true`, no error, not loading. -/
theorem C8_amended (e : Engine) (tok : Option String) (v : String)
    (hv : e.st.sortBy = v) :
    (handleSortChange v tok e).st = homeReducer e.st (HomeAction.setSort v) ∧
    (handleSortChange v tok e).st.posts = [] ∧
    (handleSortChange v tok e).st.page = 1 ∧
    (handleSortChange v tok e).st.hasMore = true ∧
    (handleSortChange v tok e).st.error = none ∧
    (handleSortChange v tok e).st.loading = false ∧
    (handleSortChange v tok e).requests = e.requests ∧
    (handleSortChange v tok e).isFetching = e.isFetching := by
  subst hv
  have h : handleSortChange e.st.sortBy tok e =
      { e with st := homeReducer e.st (HomeAction.setSort e.st.sortBy) } := by
    unfold handleSortChange dispatchFilter
    simp [homeReducer]
  rw [h]
  refine ⟨rfl, ?_, ?_, ?_, ?_, ?_, rfl, rfl⟩ <;> simp [homeReducer, initialState]

/-- Witness for C8's amended claim: re-selecting the sort key the loaded feed
already uses. -/
theorem C8_amended_witness :
    (handleSortChange "date" none loadedFeed).st =
      homeReducer loadedFeed.st (HomeAction.setSort "date") ∧
    (handleSortChange "date" none loadedFeed).st.posts = [] ∧
    (handleSortChange "date" none loadedFeed).st.page = 1 ∧
    (handleSortChange "date" none loadedFeed).st.hasMore = true ∧
    (handleSortChange "date" none loadedFeed).st.error = none ∧
    (handleSortChange "date" none loadedFeed).st.loading = false ∧
    (handleSortChange "date" none loadedFeed).requests = loadedFeed.requests ∧
    (handleSortChange "date" none loadedFeed).isFetching =
      loadedFeed.isFetching :=
  C8_amended loadedFeed none "date" (by decide)

/-- A feed that loaded two pages successfully (five total pages reported) and
then failed while fetching page 3: the errored state sits at `page = 3` with
`hasMore = true`, the flag released. -/
def erroredFeed : Engine :=
  resolveError "Network error"
    (loadMore none (resolveSuccess [Post.mk 2] 5
      (loadMore none (resolveSuccess [Post.mk 1] 5
        (loadMore none initEngine)))))

/-- Counterexample to claim C9 as stated: from the errored state at page 3,
`retry` does clear posts and error, but the fetch it issues is for page 3,
not page 1 — `loadPosts` reads its page parameter through `stateRef`, which
still holds the pre-`RESET` state in the tick where the Retry handler runs —
so `retry` differs from `reset` followed by a later-tick `loadNext`, which
fetches page 1. -/
theorem C9_counterexample :
    erroredFeed.st.error = some "Network error" ∧
    erroredFeed.st.page = 3 ∧
    erroredFeed.st.hasMore = true ∧
    erroredFeed.isFetching = false ∧
    (retry none erroredFeed).requests =
      erroredFeed.requests ++ [FetchRequest.allPosts 3 10 "" "date" none] ∧
    (resetThenLoadNext none erroredFeed).requests =
      erroredFeed.requests ++ [FetchRequest.allPosts 1 10 "" "date" none] ∧
    retry none erroredFeed ≠ resetThenLoadNext none erroredFeed := by decide

/-- Claim C9 as amended: `retry` dispatches `RESET` and calls `loadPosts` in
the same tick.  It clears posts and error, restarts the cursor at page 1
under the unchanged filters, and issues exactly one fetch — but the fetch's
page parameter is read from the stale pre-reset snapshot, so it equals the
errored state's page number; `retry` coincides with `reset` followed by
`loadNext` exactly when the pre-reset state was still on page 1. -/
theorem C9_amended (e : Engine) (tok : Option String)
    (hf : e.isFetching = false) (hm : e.st.hasMore = true)
    (hc : e.st.feedType = FeedType.following → tokenPresent tok = true) :
    (retry tok e).st.posts = [] ∧
    (retry tok e).st.error = none ∧
    (retry tok e).st.page = 1 ∧
    (retry tok e).st.loading = true ∧
    (retry tok e).st.searchQuery = e.st.searchQuery ∧
    (retry tok e).st.sortBy = e.st.sortBy ∧
    (retry tok e).st.feedType = e.st.feedType ∧
    (∃ req : FetchRequest,
      (retry tok e).requests = e.requests ++ [req] ∧ req.page = e.st.page) ∧
    (e.st.page = 1 → retry tok e = resetThenLoadNext tok e) := by
  obtain ⟨req, hEq, hpg⟩ := loadPosts_issued e.st tok
    { e with st := homeReducer e.st HomeAction.reset } hf hm hc
  have hR : retry tok e =
      { st := homeReducer (homeReducer e.st HomeAction.reset)
          HomeAction.fetchStart
        isFetching := true
        requests := e.requests ++ [req] } := by
    unfold retry
    rw [hEq]
  refine ⟨?_, ?_, ?_, ?_, ?_, ?_, ?_, ⟨req, ?_, hpg⟩, ?_⟩
  · rw [hR]; simp [homeReducer, initialState]
  · rw [hR]; simp [homeReducer, initialState]
  · rw [hR]; simp [homeReducer, initialState]
  · rw [hR]; simp [homeReducer, initialState]
  · rw [hR]; simp [homeReducer, initialState]
  · rw [hR]; simp [homeReducer, initialState]
  · rw [hR]; simp [homeReducer, initialState]
  · rw [hR]
  · intro hp
    unfold retry resetThenLoadNext loadMore
    exact loadPosts_congr e.st
      ({ e with st := homeReducer e.st HomeAction.reset }).st tok
      { e with st := homeReducer e.st HomeAction.reset }
      (by simp [homeReducer, initialState, hm])
      (by simp [homeReducer])
      (by simp [homeReducer, initialState, hp])
      (by simp [homeReducer])
      (by simp [homeReducer])

/-- Witness for C9's amended claim at the concrete errored feed. -/
theorem C9_amended_witness :
    (retry none erroredFeed).st.posts = [] ∧
    (retry none erroredFeed).st.error = none ∧
    (retry none erroredFeed).st.page = 1 ∧
    (retry none erroredFeed).st.loading = true ∧
    (retry none erroredFeed).st.searchQuery = erroredFeed.st.searchQuery ∧
    (retry none erroredFeed).st.sortBy = erroredFeed.st.sortBy ∧
    (retry none erroredFeed).st.feedType = erroredFeed.st.feedType ∧
    (∃ req : FetchRequest,
      (retry none erroredFeed).requests = erroredFeed.requests ++ [req] ∧
      req.page = erroredFeed.st.page) ∧
    (erroredFeed.st.page = 1 →
      retry none erroredFeed = resetThenLoadNext none erroredFeed) :=
  C9_amended erroredFeed none (by decide) (by decide) (by decide)

/-- Claim C10: the unauthenticated followed-scope short-circuit is the
ordinary success transition applied to an empty page with `totalPages = 0`:
from page 1 it advances the cursor to page 2 and computes
`hasMore = (2 <= 0) = false` although no page was fetched, and the feed then
rejects every further `loadNext` until a reset. -/
theorem C10_short_circuit_consumes_page (e : Engine) (tok tok2 : Option String)
    (hf : e.isFetching = false) (hm : e.st.hasMore = true)
    (hft : e.st.feedType = FeedType.following) (htk : tokenPresent tok = false)
    (hp : e.st.page = 1) :
    (loadMore tok e).st =
      homeReducer (homeReducer e.st HomeAction.fetchStart)
        (HomeAction.fetchSuccess [] 0) ∧
    (loadMore tok e).st.page = 2 ∧
    (loadMore tok e).st.hasMore = false ∧
    (loadMore tok e).requests = e.requests ∧
    loadMore tok2 (loadMore tok e) = loadMore tok e := by
  have h := loadPosts_shortCircuit e.st tok e hf hm hft htk
  have hno : (loadMore tok e).st.hasMore = false := by
    unfold loadMore
    rw [h]
    simp [homeReducer]
  refine ⟨?_, ?_, hno, ?_, ?_⟩
  · unfold loadMore
    rw [h]
  · unfold loadMore
    rw [h]
    simp [homeReducer, hp]
  · unfold loadMore
    rw [h]
  · exact loadPosts_of_noMore (loadMore tok e).st tok2 (loadMore tok e) hno

/-- Witness for C10: the freshly reset unauthenticated followed feed. -/
theorem C10_short_circuit_consumes_page_witness :
    (loadMore none anonFollowEngine).st =
      homeReducer (homeReducer anonFollowEngine.st HomeAction.fetchStart)
        (HomeAction.fetchSuccess [] 0) ∧
    (loadMore none anonFollowEngine).st.page = 2 ∧
    (loadMore none anonFollowEngine).st.hasMore = false ∧
    (loadMore none anonFollowEngine).requests = anonFollowEngine.requests ∧
    loadMore none (loadMore none anonFollowEngine) =
      loadMore none anonFollowEngine :=
  C10_short_circuit_consumes_page anonFollowEngine none none rfl rfl rfl rfl rfl
